import Mathlib

/-!
Shallow embedding of the paddel-backend waterway routing service
(src/quadkey.rs, src/db.rs, src/main.rs, src/web.rs) and proofs about it.
Machine floating point is idealised as real arithmetic; the f64-to-integer
casts and Rust's round-half-away-from-zero are modelled explicitly.
-/

open Real

/-- Rounding as Rust f64::round: round half away from zero. -/
noncomputable def rustRound (x : ℝ) : ℤ := if 0 ≤ x then ⌊x + 1/2⌋ else ⌈x - 1/2⌉

/-- Saturating conversion to u32, as Rust's float `as u32` cast. -/
def satU32 (i : ℤ) : ℕ := (max 0 (min i (2 ^ 32 - 1))).toNat

/-- Saturating conversion to i32, as Rust's float `as i32` cast. -/
def satI32 (i : ℤ) : ℤ := max (-(2 ^ 31)) (min i (2 ^ 31 - 1))

/-- Mathematical atan2 as Rust's f64::atan2 (self = y, argument = x). -/
noncomputable def atan2 (y x : ℝ) : ℝ :=
  if 0 < x then arctan (y / x)
  else if x < 0 then (if 0 ≤ y then arctan (y / x) + π else arctan (y / x) - π)
  else if 0 < y then π / 2
  else if y < 0 then -(π / 2)
  else 0

namespace Quadkey

/-- One base-4 digit character, as built by the loop body of Quadkey::new. -/
def digitChar (xb yb : Bool) : Char :=
  let digit : ℕ := (if xb then 1 else 0) + (if yb then 2 else 0)
  if digit = 0 then '0'
  else if digit = 1 then '1'
  else if digit = 2 then '2'
  else if digit = 3 then '3'
  else '?'

/-- Digit string built by Quadkey::new from the tile coordinates: the loop
    for i in (1..=zoom).rev() emits the digit for bit (i-1) of xtile/ytile,
    most significant bit first. -/
def digits (xtile ytile : ℕ) : ℕ → List Char
  | 0 => []
  | z + 1 => digitChar (xtile.testBit z) (ytile.testBit z) :: digits xtile ytile z

/-- Quadkey::tile: slippy-map projection of (lat, lon) onto the 2^zoom grid.
    The source computes the y coordinate with f64::log2 (base-2 logarithm)
    of tan(lat_rad) + 1/cos(lat_rad), rounds, and casts to u32. -/
noncomputable def tile (lat lon : ℝ) (zoom : ℕ) : ℕ × ℕ :=
  let lat_rad := lat * π / 180
  let n : ℝ := 2 ^ zoom
  (satU32 (rustRound ((lon + 180) / 360 * n)),
   satU32 (rustRound ((1 - Real.logb 2 (Real.tan lat_rad + 1 / Real.cos lat_rad) / π) / 2 * n)))

/-- Quadkey::new: the quadkey character string of a point at a zoom. -/
noncomputable def new (lat lon : ℝ) (zoom : ℕ) : List Char :=
  digits (tile lat lon zoom).1 (tile lat lon zoom).2 zoom

end Quadkey

/-- Tile formula following the words of the spec (for comparison with the
    code's Quadkey.tile): ytile uses the natural-log based asinh form
    ln(tan latRad + sec latRad) divided by pi; xtile as stated there. -/
noncomputable def specTile (lat lon : ℝ) (zoom : ℕ) : ℤ × ℤ :=
  let latRad := lat * π / 180
  (rustRound ((lon + 180) / 360 * 2 ^ zoom),
   rustRound ((1 - Real.log (Real.tan latRad + 1 / Real.cos latRad) / π) / 2 * 2 ^ zoom))

/-- Variant of the spec tile formula with the base-2 logarithm in place of
    the natural logarithm, which is what the source computes. -/
noncomputable def specTile2 (lat lon : ℝ) (zoom : ℕ) : ℤ × ℤ :=
  let latRad := lat * π / 180
  (rustRound ((lon + 180) / 360 * 2 ^ zoom),
   rustRound ((1 - Real.logb 2 (Real.tan latRad + 1 / Real.cos latRad) / π) / 2 * 2 ^ zoom))

/-- RouteNode from db.rs: a stable 64-bit id with public lat/lon. -/
structure RouteNode where
  id : ℤ
  lat : ℝ
  lon : ℝ

/-- PartialEq of RouteNode in db.rs compares the ids only. -/
instance : BEq RouteNode := ⟨fun a b => a.id == b.id⟩

/-- distance_between from db.rs: haversine great-circle distance in metres
    (Earth radius 6371e3), rounded to an integer and cast to i32. -/
noncomputable def distance_between (a b : RouteNode) : ℤ :=
  let r : ℝ := 6371e3
  let phi1 := a.lat * π / 180
  let phi2 := b.lat * π / 180
  let delta_phi := (b.lat - a.lat) * π / 180
  let delta_lambda := (b.lon - a.lon) * π / 180
  let aa := Real.sin (delta_phi / 2) * Real.sin (delta_phi / 2) +
    Real.cos phi1 * Real.cos phi2 * Real.sin (delta_lambda / 2) * Real.sin (delta_lambda / 2)
  let c := 2 * atan2 (Real.sqrt aa) (Real.sqrt (1 - aa))
  satI32 (rustRound (r * c))

/-- RouteNode::distance_to. -/
noncomputable def RouteNode.distance_to (a b : RouteNode) : ℤ := distance_between a b

/-- Row of the sqlite nodes table: id INTEGER PRIMARY KEY, lat, lon, quadkey
    (the cached zoom-13 key written by update_node or the backfill). -/
structure NodeRow where
  id : ℤ
  lat : ℝ
  lon : ℝ
  quadkey : List Char

/-- Row of the sqlite links table: id INTEGER PRIMARY KEY AUTOINCREMENT,
    source, destination. There is no uniqueness constraint on the
    (source, destination) pair. -/
structure LinkRow where
  id : ℕ
  source : ℤ
  destination : ℤ

/-- Database from db.rs over the sqlite store. nodes is kept in rowid = id
    order (id is INTEGER PRIMARY KEY, so a table scan yields ascending ids);
    links is kept in insertion (autoincrement) order. available models the
    sqlite connection: when false every query returns an error, as with an
    unreachable or failing store. -/
structure Database where
  nodes : List NodeRow
  links : List LinkRow
  nextLinkId : ℕ
  available : Bool

/-- Errors of the rusqlite/anyhow Results in db.rs. -/
inductive DbError
  | storageUnavailable
  | noNodeNear
deriving DecidableEq

/-- INSERT OR REPLACE INTO nodes: replaces the row with the same primary key
    id, keeping the rowid (= id) scan order. -/
def insertNodeRow : List NodeRow → NodeRow → List NodeRow
  | [], r => [r]
  | x :: xs, r =>
    if r.id < x.id then r :: x :: xs
    else if r.id = x.id then r :: xs
    else x :: insertNodeRow xs r

/-- Database::update_node: computes the zoom-13 quadkey and upserts the row. -/
noncomputable def Database.update_node (db : Database) (id : ℤ) (lat lon : ℝ) : Database :=
  { db with nodes := insertNodeRow db.nodes ⟨id, lat, lon, Quadkey.new lat lon 13⟩ }

/-- Database::update_way: for every consecutive member pair (windows(2)),
    INSERT OR REPLACE INTO links (source, destination). With an autoincrement
    primary key and no unique constraint on the pair, the REPLACE clause can
    never fire: each execution inserts a fresh row. -/
def Database.update_way (db : Database) (way : List ℤ) : Database :=
  (way.zip way.tail).foldl
    (fun d p => { d with links := d.links ++ [⟨d.nextLinkId, p.1, p.2⟩],
                         nextLinkId := d.nextLinkId + 1 }) db

/-- SELECT count(*) FROM nodes. -/
def Database.node_count (db : Database) : ℕ := db.nodes.length

/-- SELECT count(*) FROM links. -/
def Database.link_count (db : Database) : ℕ := db.links.length

/-- RouteNode decoded from a nodes-table row. -/
def NodeRow.toRoute (r : NodeRow) : RouteNode := ⟨r.id, r.lat, r.lon⟩

/-- Candidate set of find_near_err: SELECT ... WHERE substr(quadkey, 1, 12)
    equals the query point's zoom-12 key, decoded to RouteNodes in scan order. -/
noncomputable def Database.candidates (db : Database) (lat lon : ℝ) : List RouteNode :=
  (db.nodes.filter (fun r => r.quadkey.take 12 = Quadkey.new lat lon 12)).map NodeRow.toRoute

/-- Rust Iterator::min_by over the decoded rows: the first element
    minimizing the comparison; ties keep the earlier element. -/
noncomputable def minByDist (goal : RouteNode) : List RouteNode → Option RouteNode
  | [] => none
  | x :: xs => some (xs.foldl (fun acc y =>
      if distance_between y goal < distance_between acc goal then y else acc) x)

/-- Database::find_near_err: candidates of the query point's zoom-12 tile,
    minimized by rounded haversine distance to a goal row with id 0 at the
    query point; an empty candidate set becomes the anyhow "No node near"
    error via ok_or. -/
noncomputable def Database.find_near_err (db : Database) (lat lon : ℝ) :
    Except DbError RouteNode :=
  if db.available = false then .error .storageUnavailable
  else
    match minByDist ⟨0, lat, lon⟩ (db.candidates lat lon) with
    | some n => .ok n
    | none => .error .noNodeNear

/-- Database::find_near: any error of find_near_err is swallowed into None. -/
noncomputable def Database.find_near (db : Database) (lat lon : ℝ) : Option RouteNode :=
  match db.find_near_err lat lon with
  | .ok n => some n
  | .error _ => none

/-- Primary-key lookup of a node row, as the LEFT JOIN on nodes resolves the
    other end of a link; None models the NULL row of a dangling reference. -/
def Database.lookupNode (db : Database) (i : ℤ) : Option RouteNode :=
  (db.nodes.find? (fun r => r.id == i)).map NodeRow.toRoute

/-- Database::neighbours_res: nodes linked to the given node in either
    direction (source query chained with destination query); join rows whose
    node is missing fail to decode and are filtered out (filter is_ok); each
    neighbour is paired with its rounded haversine distance from the node. -/
noncomputable def Database.neighbours_res (db : Database) (node : RouteNode) :
    Except DbError (List (RouteNode × ℤ)) :=
  if db.available = false then .error .storageUnavailable
  else
    let fromSource := (db.links.filter (fun l => l.source == node.id)).filterMap
      (fun l => db.lookupNode l.destination)
    let fromDest := (db.links.filter (fun l => l.destination == node.id)).filterMap
      (fun l => db.lookupNode l.source)
    .ok ((fromSource ++ fromDest).map (fun n => (n, distance_between node n)))

/-- Database::neighbours: neighbours_res with unwrap_or(Vec::new()) — any
    error becomes the empty neighbour list. -/
noncomputable def Database.neighbours (db : Database) (node : RouteNode) :
    List (RouteNode × ℤ) :=
  match db.neighbours_res node with
  | .ok v => v
  | .error _ => []

/-- Frontier entry of the A* search: cost so far, the entry's node, and the
    path to it in reverse order (head = the entry's node). -/
structure SearchEntry where
  g : ℤ
  node : RouteNode
  pathRev : List RouteNode

/-- Estimated total cost g + h of a frontier entry, with the heuristic
    h(n) = n.distance_to(goal) that route passes to astar. -/
noncomputable def fScore (goal : RouteNode) (e : SearchEntry) : ℤ :=
  e.g + RouteNode.distance_to e.node goal

/-- Pop the first frontier entry minimizing the estimated total cost. -/
noncomputable def popMinEntry (goal : RouteNode) :
    List SearchEntry → Option (SearchEntry × List SearchEntry)
  | [] => none
  | e :: es =>
    match popMinEntry goal es with
    | none => some (e, [])
    | some (m, rest) =>
      if fScore goal m < fScore goal e then some (m, e :: rest) else some (e, es)

/-- Goal-test closure that route passes to astar in main.rs and web.rs:
    node equality with the goal (PartialEq, so by id), or rounded
    great-circle distance to the goal strictly below 100 metres. -/
noncomputable def success (goal n : RouteNode) : Bool :=
  (n == goal) || decide (RouteNode.distance_to n goal < 100)

/-- Modelled from the spec: the A* loop of the external pathfinding crate's
    astar, which is a dependency and not part of src/. Best-first search per
    spec 4.4: pop the frontier entry with least estimated total cost, return
    the reconstructed path and its cost when the goal test passes, expand
    neighbours fetched from the store on demand, deduplicate expanded nodes
    by identity (id), and return None when the frontier is exhausted. Fuel
    bounds the recursion. -/
noncomputable def astarLoop (db : Database) (goal : RouteNode) :
    ℕ → List SearchEntry → List ℤ → Option (List RouteNode × ℤ)
  | 0, _, _ => none
  | fuel + 1, frontier, visited =>
    match popMinEntry goal frontier with
    | none => none
    | some (e, rest) =>
      if success goal e.node then some (e.pathRev.reverse, e.g)
      else if visited.contains e.node.id then astarLoop db goal fuel rest visited
      else
        astarLoop db goal fuel
          (rest ++ (db.neighbours e.node).map
            (fun nc => ⟨e.g + nc.2, nc.1, nc.1 :: e.pathRev⟩))
          (e.node.id :: visited)

/-- Modelled from the spec: entry point of the search as route calls it. -/
noncomputable def astar (fuel : ℕ) (db : Database) (start goal : RouteNode) :
    Option (List RouteNode × ℤ) :=
  astarLoop db goal fuel [⟨0, start, [start]⟩] []

/-- QueryParams of main.rs and web.rs; the f32 fields are cast to f64 before
    use and modelled as reals. -/
structure QueryParams where
  lat1 : ℝ
  lon1 : ℝ
  lat2 : ℝ
  lon2 : ℝ

/-- Rejections the route handler can produce — warp's reject() (a not-found
    rejection) and reject::custom(NodeNotFound) — plus a case for any other
    rejection reaching handle_rejection. -/
inductive Rejection
  | notFound
  | nodeNotFound
  | other
deriving DecidableEq

/-- ErrorMessage of main.rs and web.rs: the JSON error body. -/
structure ErrorMessage where
  code : ℕ
  message : String
deriving DecidableEq

/-- handle_rejection of main.rs and web.rs: is_not_found gives 404 NOT_FOUND,
    the custom NodeNotFound gives 400 "Node not found", anything else gives
    500 UNHANDLED_REJECTION. -/
def handle_rejection : Rejection → ErrorMessage
  | .notFound => ⟨404, "NOT_FOUND"⟩
  | .nodeNotFound => ⟨400, "Node not found"⟩
  | .other => ⟨500, "UNHANDLED_REJECTION"⟩

/-- route handler of main.rs and web.rs: resolve both endpoints with
    find_near, reject with the custom NodeNotFound if either is None, run
    astar, map a found path to the linestring and distance, and call warp's
    reject() when astar returns None. -/
noncomputable def route (fuel : ℕ) (db : Database) (params : QueryParams) :
    Except Rejection (List (ℝ × ℝ) × ℤ) :=
  match db.find_near params.lat1 params.lon1, db.find_near params.lat2 params.lon2 with
  | some start, some goal =>
    match astar fuel db start goal with
    | some (nodes, distance) => .ok (nodes.map (fun n => (n.lat, n.lon)), distance)
    | none => .error .notFound
  | _, _ => .error .nodeNotFound

/-- Wire-visible reply: 200 with the RouteResult JSON (linestring and
    distance), or the error JSON with the status from handle_rejection. -/
inductive Reply
  | ok (linestring : List (ℝ × ℝ)) (distance : ℤ)
  | failure (code : ℕ) (message : String)

/-- Behaviour of one route request end to end: the route handler composed
    with handle_rejection (warp's recover). -/
noncomputable def service (fuel : ℕ) (db : Database) (params : QueryParams) : Reply :=
  match route fuel db params with
  | .ok (ls, d) => .ok ls d
  | .error rej => .failure (handle_rejection rej).code (handle_rejection rej).message

/-- Stored zoom-13 quadkey of the point (0, 0). -/
def k13at00 : List Char := ['3','0','0','0','0','0','0','0','0','0','0','0','0']

/-- Stored zoom-13 quadkey of the point (0, 90). -/
def k13at090 : List Char := ['3','1','0','0','0','0','0','0','0','0','0','0','0']

/-- Store with two correctly keyed nodes, at (0,0) and (0,90), and no links:
    both endpoints of the query resolve but no path exists. -/
noncomputable def dbTwoIsolated : Database :=
  ⟨[⟨1, 0, 0, k13at00⟩, ⟨2, 0, 90, k13at090⟩], [], 1, true⟩

/-- Store holding two distinct node rows at the same coordinates (0,0). -/
noncomputable def dbCoincident : Database :=
  ⟨[⟨1, 0, 0, k13at00⟩, ⟨2, 0, 0, k13at00⟩], [], 1, true⟩

/-- Store holding a single node at (0,0) with id 7. -/
noncomputable def dbSingle : Database :=
  ⟨[⟨7, 0, 0, k13at00⟩], [], 1, true⟩

/-- Store whose connection fails (unreachable sqlite file), holding a node. -/
noncomputable def dbDown : Database :=
  ⟨[⟨1, 0, 0, k13at00⟩], [], 1, false⟩

/-- Store with no nodes and no links, reachable. -/
noncomputable def dbEmpty : Database := ⟨[], [], 1, true⟩

/-- Latitude (in degrees) whose radian value is arcsin(3/5), where
    tan + sec evaluates to exactly 2. -/
noncomputable def latStar : ℝ := 180 * Real.arcsin (3/5) / π

/-- Fold of Rust Iterator::min_by starting from the first element. -/
noncomputable def minFold (goal acc : RouteNode) (t : List RouteNode) : RouteNode :=
  t.foldl (fun acc y =>
    if distance_between y goal < distance_between acc goal then y else acc) acc

/-- Characterisation of rustRound on nonnegative values. -/
theorem rustRound_eq (x : ℝ) (n : ℤ) (h0 : 0 ≤ x) (h1 : (n:ℝ) ≤ x + 1/2)
    (h2 : x + 1/2 < n + 1) : rustRound x = n := by
  unfold rustRound
  rw [if_pos h0, Int.floor_eq_iff]
  exact ⟨h1, h2⟩

/-- Lower bound for rustRound on nonnegative values. -/
theorem rustRound_ge (x : ℝ) (n : ℤ) (h0 : 0 ≤ x) (h : (n:ℝ) ≤ x + 1/2) :
    n ≤ rustRound x := by
  unfold rustRound
  rw [if_pos h0]
  exact Int.le_floor.2 h

/-- rustRound of zero. -/
theorem rustRound_zero : rustRound 0 = 0 :=
  rustRound_eq 0 0 le_rfl (by norm_num) (by norm_num)

/-- satU32 is the identity on in-range integers, as a cast equation. -/
theorem satU32_int (i : ℤ) (h0 : 0 ≤ i) (h1 : i ≤ 2 ^ 32 - 1) : (satU32 i : ℤ) = i := by
  unfold satU32
  omega

/-- Combined evaluation of satU32 after rustRound. -/
theorem satRound_eq (x : ℝ) (n : ℕ) (h0 : 0 ≤ x) (h1 : (n:ℝ) ≤ x + 1/2)
    (h2 : x + 1/2 < (n:ℝ) + 1) (h3 : (n:ℤ) ≤ 2 ^ 32 - 1) :
    satU32 (rustRound x) = n := by
  have h := rustRound_eq x n h0 (by exact_mod_cast h1) (by push_cast; linarith)
  rw [h]
  unfold satU32
  omega

/-- Lower bound through the saturating i32 cast. -/
theorem satI32_ge (n x : ℤ) (h : n ≤ x) (h2 : n ≤ 2 ^ 31 - 1) : n ≤ satI32 x := by
  unfold satI32
  omega

/-- BEq on RouteNode unfolds to id comparison. -/
theorem routeNode_beq (a b : RouteNode) : (a == b) = (a.id == b.id) := rfl

/-- Quadkey.tile at latitude 0: the y projection collapses to n/2 because
    tan 0 + 1/cos 0 = 1 and logb 2 1 = 0. -/
theorem tile_lat0 (lon : ℝ) (zoom : ℕ) :
    Quadkey.tile 0 lon zoom =
      (satU32 (rustRound ((lon + 180) / 360 * 2 ^ zoom)),
       satU32 (rustRound ((1:ℝ) / 2 * 2 ^ zoom))) := by
  unfold Quadkey.tile
  norm_num [Real.tan_zero, Real.cos_zero, Real.logb_one]

/-- Tile coordinates of (0,0) at zoom 13. -/
theorem tile_0_0_13 : Quadkey.tile 0 0 13 = (4096, 4096) := by
  rw [tile_lat0]
  congr 1
  · exact satRound_eq _ 4096 (by norm_num) (by norm_num) (by norm_num) (by norm_num)
  · exact satRound_eq _ 4096 (by norm_num) (by norm_num) (by norm_num) (by norm_num)

/-- Tile coordinates of (0,0) at zoom 12. -/
theorem tile_0_0_12 : Quadkey.tile 0 0 12 = (2048, 2048) := by
  rw [tile_lat0]
  congr 1
  · exact satRound_eq _ 2048 (by norm_num) (by norm_num) (by norm_num) (by norm_num)
  · exact satRound_eq _ 2048 (by norm_num) (by norm_num) (by norm_num) (by norm_num)

/-- Tile coordinates of (0,0) at zoom 4. -/
theorem tile_0_0_4 : Quadkey.tile 0 0 4 = (8, 8) := by
  rw [tile_lat0]
  congr 1
  · exact satRound_eq _ 8 (by norm_num) (by norm_num) (by norm_num) (by norm_num)
  · exact satRound_eq _ 8 (by norm_num) (by norm_num) (by norm_num) (by norm_num)

/-- Tile coordinates of (0,0) at zoom 2. -/
theorem tile_0_0_2 : Quadkey.tile 0 0 2 = (2, 2) := by
  rw [tile_lat0]
  congr 1
  · exact satRound_eq _ 2 (by norm_num) (by norm_num) (by norm_num) (by norm_num)
  · exact satRound_eq _ 2 (by norm_num) (by norm_num) (by norm_num) (by norm_num)

/-- Tile coordinates of (0,90) at zoom 13. -/
theorem tile_0_90_13 : Quadkey.tile 0 90 13 = (6144, 4096) := by
  rw [tile_lat0]
  congr 1
  · exact satRound_eq _ 6144 (by norm_num) (by norm_num) (by norm_num) (by norm_num)
  · exact satRound_eq _ 4096 (by norm_num) (by norm_num) (by norm_num) (by norm_num)

/-- Tile coordinates of (0,90) at zoom 12. -/
theorem tile_0_90_12 : Quadkey.tile 0 90 12 = (3072, 2048) := by
  rw [tile_lat0]
  congr 1
  · exact satRound_eq _ 3072 (by norm_num) (by norm_num) (by norm_num) (by norm_num)
  · exact satRound_eq _ 2048 (by norm_num) (by norm_num) (by norm_num) (by norm_num)

/-- Tile coordinates of (0,90) at zoom 2: the x projection hits 0.75 of the
    grid, so round lands on 3 of 4. -/
theorem tile_0_90_2 : Quadkey.tile 0 90 2 = (3, 2) := by
  rw [tile_lat0]
  congr 1
  · exact satRound_eq _ 3 (by norm_num) (by norm_num) (by norm_num) (by norm_num)
  · exact satRound_eq _ 2 (by norm_num) (by norm_num) (by norm_num) (by norm_num)

/-- Tile coordinates of (0,90) at zoom 1: 0.75 of the grid scales to 1.5,
    which rounds up to 2. -/
theorem tile_0_90_1 : Quadkey.tile 0 90 1 = (2, 1) := by
  rw [tile_lat0]
  congr 1
  · exact satRound_eq _ 2 (by norm_num) (by norm_num) (by norm_num) (by norm_num)
  · exact satRound_eq _ 1 (by norm_num) (by norm_num) (by norm_num) (by norm_num)

/-- Quadkey of (0,0) at zoom 13. -/
theorem qk13_00 : Quadkey.new 0 0 13 = k13at00 := by
  unfold Quadkey.new
  rw [tile_0_0_13]
  decide

/-- Quadkey of (0,0) at zoom 12. -/
theorem qk12_00 : Quadkey.new 0 0 12 = ['3','0','0','0','0','0','0','0','0','0','0','0'] := by
  unfold Quadkey.new
  rw [tile_0_0_12]
  decide

/-- Quadkey of (0,0) at zoom 4 — the example value of the source's test. -/
theorem qk4_00 : Quadkey.new 0 0 4 = ['3','0','0','0'] := by
  unfold Quadkey.new
  rw [tile_0_0_4]
  decide

/-- Quadkey of (0,0) at zoom 2. -/
theorem qk2_00 : Quadkey.new 0 0 2 = ['3','0'] := by
  unfold Quadkey.new
  rw [tile_0_0_2]
  decide

/-- Quadkey of (0,90) at zoom 13. -/
theorem qk13_090 : Quadkey.new 0 90 13 = k13at090 := by
  unfold Quadkey.new
  rw [tile_0_90_13]
  decide

/-- Quadkey of (0,90) at zoom 12. -/
theorem qk12_090 : Quadkey.new 0 90 12 = ['3','1','0','0','0','0','0','0','0','0','0','0'] := by
  unfold Quadkey.new
  rw [tile_0_90_12]
  decide

/-- Quadkey of (0,90) at zoom 2. -/
theorem qk2_090 : Quadkey.new 0 90 2 = ['3','1'] := by
  unfold Quadkey.new
  rw [tile_0_90_2]
  decide

/-- Quadkey of (0,90) at zoom 1: its single digit differs from the first
    digit of the zoom-2 key because rounding moved the point across the
    zoom-1 tile boundary. -/
theorem qk1_090 : Quadkey.new 0 90 1 = ['2'] := by
  unfold Quadkey.new
  rw [tile_0_90_1]
  decide

/-- Radian value of the latStar latitude is arcsin(3/5). -/
theorem latStar_rad : latStar * π / 180 = Real.arcsin (3/5) := by
  unfold latStar
  field_simp

/-- At latStar the projection argument tan + sec evaluates to exactly 2. -/
theorem tanSec_latStar :
    Real.tan (latStar * π / 180) + 1 / Real.cos (latStar * π / 180) = 2 := by
  rw [latStar_rad]
  have hs : Real.sin (Real.arcsin (3/5)) = 3/5 := Real.sin_arcsin (by norm_num) (by norm_num)
  have hc : Real.cos (Real.arcsin (3/5)) = 4/5 := by
    rw [Real.cos_arcsin, show (1 - (3/5:ℝ)^2) = (4/5)^2 by norm_num]
    exact Real.sqrt_sq (by norm_num)
  rw [Real.tan_eq_sin_div_cos, hs, hc]
  norm_num

/-- Code y tile coordinate at latStar, zoom 4: the base-2 logarithm of 2 is
    1, so the projection value is 8·(1 − 1/π), which rounds to 5. -/
theorem tile_latStar_y : (Quadkey.tile latStar 0 4).2 = 5 := by
  simp only [Quadkey.tile]
  rw [tanSec_latStar, Real.logb_self_eq_one (by norm_num)]
  have hp1 : (3:ℝ) < π := pi_gt_three
  have hp2 : π < 3.15 := pi_lt_d2
  have hinv1 : 1/π < 1/3 := by
    apply one_div_lt_one_div_of_lt (by norm_num) hp1
  have hinv2 : (1:ℝ)/3.15 < 1/π := one_div_lt_one_div_of_lt pi_pos hp2
  exact satRound_eq _ 5 (by nlinarith) (by push_cast; nlinarith) (by push_cast; nlinarith)
    (by norm_num)

/-- Spec y tile coordinate at latStar, zoom 4: the natural logarithm of 2
    makes the projection value 8·(1 − ln 2/π), which rounds to 6. -/
theorem specTile_latStar_y : (specTile latStar 0 4).2 = 6 := by
  simp only [specTile]
  rw [tanSec_latStar]
  have hp1 : (3:ℝ) < π := pi_gt_three
  have hp2 : π < 3.15 := pi_lt_d2
  have hinv1 : 1/π < 1/3 := one_div_lt_one_div_of_lt (by norm_num) hp1
  have hinv2 : (1:ℝ)/3.15 < 1/π := one_div_lt_one_div_of_lt pi_pos hp2
  have hl1 : (0.6931471803:ℝ) < Real.log 2 := Real.log_two_gt_d9
  have hl2 : Real.log 2 < 0.6931471808 := Real.log_two_lt_d9
  have hd2 : (0.22:ℝ) < Real.log 2 / π := by
    rw [div_eq_mul_inv]
    have h3 : (3.15:ℝ)⁻¹ < π⁻¹ := by
      rw [← one_div, ← one_div]
      exact hinv2
    have ha : (0.6931471803:ℝ) * π⁻¹ < Real.log 2 * π⁻¹ :=
      mul_lt_mul_of_pos_right hl1 (by positivity)
    have hb : (0.6931471803:ℝ) * (3.15:ℝ)⁻¹ < 0.6931471803 * π⁻¹ :=
      mul_lt_mul_of_pos_left h3 (by norm_num)
    have hc : (0.22:ℝ) < 0.6931471803 * (3.15:ℝ)⁻¹ := by norm_num
    linarith
  have hd1 : Real.log 2 / π < 0.24 := by
    rw [div_eq_mul_inv]
    have h3 : π⁻¹ < (3:ℝ)⁻¹ := by
      rw [← one_div, ← one_div]
      exact hinv1
    have ha : Real.log 2 * π⁻¹ < 0.6931471808 * π⁻¹ :=
      mul_lt_mul_of_pos_right hl2 (by positivity)
    have hb : (0.6931471808:ℝ) * π⁻¹ < 0.6931471808 * (3:ℝ)⁻¹ :=
      mul_lt_mul_of_pos_left h3 (by norm_num)
    have hc : (0.6931471808:ℝ) * (3:ℝ)⁻¹ < 0.24 := by norm_num
    linarith
  apply rustRound_eq _ 6 (by nlinarith [hd1, hd2]) (by push_cast; nlinarith [hd1, hd2])
    (by push_cast; nlinarith [hd1, hd2])

/-- Spec-with-log2 tile value at (0,0), zoom 4. -/
theorem specTile2_0_0_4 : specTile2 0 0 4 = (8, 8) := by
  unfold specTile2
  norm_num [Real.tan_zero, Real.cos_zero, Real.logb_one]
  all_goals exact rustRound_eq 8 8 (by norm_num) (by norm_num) (by norm_num)

/-- Haversine distance between nodes at identical coordinates is 0: all
    angle deltas vanish and atan2 0 1 = 0. -/
theorem dist_same_coords (a b : RouteNode) (hlat : a.lat = b.lat) (hlon : a.lon = b.lon) :
    distance_between a b = 0 := by
  simp only [distance_between]
  rw [hlat, hlon]
  simp only [sub_self, zero_mul, zero_div, Real.sin_zero, mul_zero, zero_add, add_zero]
  norm_num [atan2, Real.sqrt_one, Real.arctan_zero, rustRound_zero, satI32]

/-- Rounded haversine distance between (0,0) and (0,90) is at least 100
    metres (it is a quarter of the equator). -/
theorem dist_00_090_ge (i j : ℤ) :
    (100:ℤ) ≤ distance_between ⟨i, 0, 0⟩ ⟨j, 0, 90⟩ := by
  simp only [distance_between]
  have h1 : ((90:ℝ) - 0) * π / 180 / 2 = π / 4 := by ring
  have h3 : (0:ℝ) * π / 180 = 0 := by ring
  rw [h1]
  simp only [sub_self, zero_mul, zero_div, h3, Real.sin_zero, Real.cos_zero,
    Real.sin_pi_div_four, mul_zero, zero_add, add_zero, one_mul, zero_sub]
  have h4 : Real.sqrt 2 / 2 * (Real.sqrt 2 / 2) = 1/2 := by
    rw [div_mul_div_comm, Real.mul_self_sqrt (by norm_num)]
    norm_num
  have h5 : atan2 (Real.sqrt (1/2)) (Real.sqrt (1 - 1/2)) = π / 4 := by
    rw [show (1:ℝ) - 1/2 = 1/2 by norm_num]
    unfold atan2
    rw [if_pos (Real.sqrt_pos.2 (by norm_num)),
      div_self (ne_of_gt (Real.sqrt_pos.2 (by norm_num))), Real.arctan_one]
  rw [h4, h5]
  apply satI32_ge _ _ ?_ (by norm_num)
  apply rustRound_ge _ _ (by positivity)
  push_cast
  nlinarith [pi_gt_three]

/-- Goal test at the goal node itself always succeeds (id equality). -/
theorem success_self (g : RouteNode) : success g g = true := by
  simp [success, routeNode_beq]

/-- Goal test of the node at (0,0) with id 1 against the goal at (0,90)
    with id 2 fails: the ids differ and the distance exceeds 100 m. -/
theorem success_isolated_false : success ⟨2, 0, 90⟩ ⟨1, 0, 0⟩ = false := by
  have h := dist_00_090_ge 1 2
  simp only [success, routeNode_beq, RouteNode.distance_to, Bool.or_eq_false_iff,
    decide_eq_false_iff_not, not_lt]
  exact ⟨by decide, h⟩

/-- Unfolding step of the min_by fold. -/
theorem minFold_cons (goal acc b : RouteNode) (t : List RouteNode) :
    minFold goal acc (b :: t) =
      minFold goal (if distance_between b goal < distance_between acc goal then b else acc) t :=
  rfl

/-- The min_by fold yields an element of the inputs that minimizes the
    rounded distance among the accumulator and the list. -/
theorem minFold_spec (goal : RouteNode) :
    ∀ (t : List RouteNode) (acc : RouteNode),
      (minFold goal acc t = acc ∨ minFold goal acc t ∈ t) ∧
      distance_between (minFold goal acc t) goal ≤ distance_between acc goal ∧
      ∀ y ∈ t, distance_between (minFold goal acc t) goal ≤ distance_between y goal := by
  intro t
  induction t with
  | nil =>
    intro acc
    exact ⟨Or.inl rfl, le_rfl, by intro y hy; cases hy⟩
  | cons b t ih =>
    intro acc
    rw [minFold_cons]
    by_cases hb : distance_between b goal < distance_between acc goal
    · rw [if_pos hb]
      obtain ⟨m1, m2, m3⟩ := ih b
      refine ⟨?_, le_trans m2 (le_of_lt hb), ?_⟩
      · rcases m1 with h | h
        · rw [h]
          exact Or.inr (List.mem_cons_self b t)
        · exact Or.inr (List.mem_cons_of_mem b h)
      · intro y hy
        rcases List.mem_cons.1 hy with h | h
        · rw [h]
          exact m2
        · exact m3 y h
    · rw [if_neg hb]
      obtain ⟨m1, m2, m3⟩ := ih acc
      refine ⟨?_, m2, ?_⟩
      · rcases m1 with h | h
        · exact Or.inl h
        · exact Or.inr (List.mem_cons_of_mem b h)
      · intro y hy
        rcases List.mem_cons.1 hy with h | h
        · rw [h]
          exact le_trans m2 (not_lt.1 hb)
        · exact m3 y h

/-- minByDist of the empty candidate list. -/
theorem minByDist_nil (goal : RouteNode) : minByDist goal [] = none := rfl

/-- minByDist of a nonempty candidate list is the min_by fold from its head. -/
theorem minByDist_cons (goal x : RouteNode) (xs : List RouteNode) :
    minByDist goal (x :: xs) = some (minFold goal x xs) := rfl

/-- minByDist returns None exactly on the empty list. -/
theorem minByDist_eq_none_iff (goal : RouteNode) (l : List RouteNode) :
    minByDist goal l = none ↔ l = [] := by
  cases l <;> simp [minByDist_nil, minByDist_cons]

/-- A node returned by minByDist belongs to the list and minimizes the
    rounded distance over it. -/
theorem minByDist_mem_le (goal : RouteNode) (l : List RouteNode) (n : RouteNode)
    (h : minByDist goal l = some n) :
    n ∈ l ∧ ∀ m ∈ l, distance_between n goal ≤ distance_between m goal := by
  cases l with
  | nil => cases h
  | cons x xs =>
    rw [minByDist_cons] at h
    injection h with h
    obtain ⟨m1, m2, m3⟩ := minFold_spec goal xs x
    rw [h] at m1 m2 m3
    constructor
    · rcases m1 with h2 | h2
      · rw [h2]
        exact List.mem_cons_self x xs
      · exact List.mem_cons_of_mem x h2
    · intro m hm
      rcases List.mem_cons.1 hm with h2 | h2
      · rw [h2]
        exact m2
      · exact m3 m h2

/-- When one element is strictly closer than every other element of the
    list, the first-minimum min_by fold returns exactly it. -/
theorem minByDist_eq_of_strict (goal x : RouteNode) (l : List RouteNode)
    (hx : x ∈ l)
    (hstrict : ∀ y ∈ l, y ≠ x → distance_between x goal < distance_between y goal) :
    minByDist goal l = some x := by
  cases l with
  | nil => cases hx
  | cons a t =>
    rw [minByDist_cons]
    obtain ⟨m1, m2, m3⟩ := minFold_spec goal t a
    by_cases hmx : minFold goal a t = x
    · rw [hmx]
    · exfalso
      have hmem : minFold goal a t ∈ a :: t := by
        rcases m1 with h | h
        · rw [h]
          exact List.mem_cons_self a t
        · exact List.mem_cons_of_mem a h
      have hlt := hstrict _ hmem hmx
      have hle : distance_between (minFold goal a t) goal ≤ distance_between x goal := by
        rcases List.mem_cons.1 hx with h | h
        · rw [h]
          exact m2
        · exact m3 x h
      exact absurd hle (not_le.2 hlt)

/-- The popped entry is in the frontier, and the remaining entries are a
    subset of the frontier. -/
theorem popMinEntry_spec (g : RouteNode) :
    ∀ (l : List SearchEntry) (e : SearchEntry) (rest : List SearchEntry),
      popMinEntry g l = some (e, rest) → e ∈ l ∧ ∀ x ∈ rest, x ∈ l := by
  intro l
  induction l with
  | nil => intro e rest h; cases h
  | cons a t ih =>
    intro e rest h
    simp only [popMinEntry] at h
    cases hrec : popMinEntry g t with
    | none =>
      simp only [hrec] at h
      injection h with h
      injection h with h1 h2
      subst h1
      subst h2
      exact ⟨List.mem_cons_self a t, by intro x hx; cases hx⟩
    | some pr =>
      obtain ⟨m, r⟩ := pr
      simp only [hrec] at h
      by_cases hf : fScore g m < fScore g a
      · rw [if_pos hf] at h
        injection h with h
        injection h with h1 h2
        subst h1
        subst h2
        have hm := ih m r hrec
        refine ⟨List.mem_cons_of_mem a hm.1, ?_⟩
        intro x hx
        rcases List.mem_cons.1 hx with hxa | hxr
        · rw [hxa]
          exact List.mem_cons_self a t
        · exact List.mem_cons_of_mem a (hm.2 x hxr)
      · rw [if_neg hf] at h
        injection h with h
        injection h with h1 h2
        subst h1
        subst h2
        exact ⟨List.mem_cons_self a t, fun x hx => List.mem_cons_of_mem a hx⟩

/-- Search step when the popped entry passes the goal test. -/
theorem astarLoop_succ_found (db : Database) (g : RouteNode) (fuel : ℕ)
    {frontier rest : List SearchEntry} {e : SearchEntry} (visited : List ℤ)
    (hpop : popMinEntry g frontier = some (e, rest))
    (hsucc : success g e.node = true) :
    astarLoop db g (fuel + 1) frontier visited = some (e.pathRev.reverse, e.g) := by
  simp only [astarLoop, hpop, hsucc, if_true]

/-- Search step when the popped entry fails the goal test and was not yet
    expanded. -/
theorem astarLoop_succ_expand (db : Database) (g : RouteNode) (fuel : ℕ)
    {frontier rest : List SearchEntry} {e : SearchEntry} {visited : List ℤ}
    (hpop : popMinEntry g frontier = some (e, rest))
    (hsucc : success g e.node = false)
    (hvis : visited.contains e.node.id = false) :
    astarLoop db g (fuel + 1) frontier visited =
      astarLoop db g fuel
        (rest ++ (db.neighbours e.node).map
          (fun nc => ⟨e.g + nc.2, nc.1, nc.1 :: e.pathRev⟩))
        (e.node.id :: visited) := by
  simp only [astarLoop, hpop, hsucc, hvis, Bool.false_eq_true, if_false]

/-- The search returns None on an empty frontier, whatever the fuel. -/
theorem astarLoop_empty (db : Database) (g : RouteNode) (visited : List ℤ) :
    ∀ fuel : ℕ, astarLoop db g fuel [] visited = none := by
  intro fuel
  cases fuel <;> simp [astarLoop, popMinEntry]

/-- Any path returned by the search loop ends in a node passing the goal
    test, provided every frontier entry carries its own node at the head of
    its reversed path. -/
theorem astarLoop_last (db : Database) (g : RouteNode) :
    ∀ (fuel : ℕ) (frontier : List SearchEntry) (visited : List ℤ)
      (p : List RouteNode) (c : ℤ),
      (∀ e ∈ frontier, e.pathRev.head? = some e.node) →
      astarLoop db g fuel frontier visited = some (p, c) →
      ∃ last, p.getLast? = some last ∧ success g last = true := by
  intro fuel
  induction fuel with
  | zero =>
    intro frontier visited p c hinv h
    simp only [astarLoop] at h
    cases h
  | succ fuel ih =>
    intro frontier visited p c hinv h
    simp only [astarLoop] at h
    cases hpop : popMinEntry g frontier with
    | none =>
      simp only [hpop] at h
      cases h
    | some pr =>
      obtain ⟨e, rest⟩ := pr
      simp only [hpop] at h
      by_cases hs : success g e.node = true
      · rw [if_pos hs] at h
        injection h with h
        injection h with h1 h2
        refine ⟨e.node, ?_, hs⟩
        rw [← h1, List.getLast?_reverse]
        exact hinv e (popMinEntry_spec g frontier e rest hpop).1
      · rw [if_neg hs] at h
        by_cases hv : visited.contains e.node.id = true
        · rw [if_pos hv] at h
          apply ih rest visited p c ?_ h
          intro x hx
          exact hinv x ((popMinEntry_spec g frontier e rest hpop).2 x hx)
        · rw [if_neg hv] at h
          apply ih _ _ p c ?_ h
          intro x hx
          rcases List.mem_append.1 hx with hxr | hxm
          · exact hinv x ((popMinEntry_spec g frontier e rest hpop).2 x hxr)
          · obtain ⟨nc, hnc, heq⟩ := List.mem_map.1 hxm
            rw [← heq]
            rfl

/-- A start node that already satisfies the goal test yields the single-node
    path with cost 0 — in particular searching from a node to itself. -/
theorem astar_self (db : Database) (s : RouteNode) : astar 1 db s s = some ([s], 0) := by
  have hpop : popMinEntry s [⟨0, s, [s]⟩] = some (⟨0, s, [s]⟩, []) := rfl
  have h := astarLoop_succ_found db s 0 [] hpop (success_self s)
  calc astar 1 db s s = astarLoop db s (0 + 1) [⟨0, s, [s]⟩] [] := rfl
    _ = some (([s]).reverse, 0) := h
    _ = some ([s], 0) := by simp

/-- find_near on the empty store returns None (empty candidate set). -/
theorem find_near_dbEmpty : dbEmpty.find_near 0 0 = none := by
  simp [Database.find_near, Database.find_near_err, Database.candidates, dbEmpty, minByDist]

/-- Candidate set of dbSingle at (0,0): its one node matches the prefix. -/
theorem candidates_dbSingle : dbSingle.candidates 0 0 = [⟨7, 0, 0⟩] := by
  simp +decide [Database.candidates, dbSingle, qk12_00, NodeRow.toRoute, k13at00]

/-- Candidate set of dbCoincident at (0,0): both rows match the prefix. -/
theorem candidates_dbCoincident : dbCoincident.candidates 0 0 = [⟨1, 0, 0⟩, ⟨2, 0, 0⟩] := by
  simp +decide [Database.candidates, dbCoincident, qk12_00, NodeRow.toRoute, k13at00]

/-- find_near on the coincident store returns the first row in scan order:
    both rows are at rounded distance 0, and min_by keeps the earlier one. -/
theorem find_near_dbCoincident : dbCoincident.find_near 0 0 = some ⟨1, 0, 0⟩ := by
  have e1 : distance_between ⟨1, 0, 0⟩ ⟨0, 0, 0⟩ = 0 := dist_same_coords _ _ rfl rfl
  have e2 : distance_between ⟨2, 0, 0⟩ ⟨0, 0, 0⟩ = 0 := dist_same_coords _ _ rfl rfl
  have hav : dbCoincident.available = true := rfl
  simp only [Database.find_near, Database.find_near_err, candidates_dbCoincident, hav,
    minByDist_cons, minFold_cons, e1, e2, lt_self_iff_false, if_false]
  simp [minFold]

/-- Candidate set of dbTwoIsolated at (0,0): only the node at (0,0). -/
theorem candidates_dbTwo_00 : dbTwoIsolated.candidates 0 0 = [⟨1, 0, 0⟩] := by
  simp +decide [Database.candidates, dbTwoIsolated, qk12_00, NodeRow.toRoute, k13at00, k13at090]

/-- Candidate set of dbTwoIsolated at (0,90): only the node at (0,90). -/
theorem candidates_dbTwo_090 : dbTwoIsolated.candidates 0 90 = [⟨2, 0, 90⟩] := by
  simp +decide [Database.candidates, dbTwoIsolated, qk12_090, NodeRow.toRoute, k13at00, k13at090]

/-- find_near on dbTwoIsolated resolves (0,0) to the node with id 1. -/
theorem find_near_dbTwo_00 : dbTwoIsolated.find_near 0 0 = some ⟨1, 0, 0⟩ := by
  have hav : dbTwoIsolated.available = true := rfl
  simp only [Database.find_near, Database.find_near_err, candidates_dbTwo_00, hav,
    minByDist_cons]
  simp [minFold]

/-- find_near on dbTwoIsolated resolves (0,90) to the node with id 2. -/
theorem find_near_dbTwo_090 : dbTwoIsolated.find_near 0 90 = some ⟨2, 0, 90⟩ := by
  have hav : dbTwoIsolated.available = true := rfl
  simp only [Database.find_near, Database.find_near_err, candidates_dbTwo_090, hav,
    minByDist_cons]
  simp [minFold]

/-- dbTwoIsolated has no links, so every neighbour set is empty. -/
theorem neighbours_dbTwo (n : RouteNode) : dbTwoIsolated.neighbours n = [] := by
  simp [Database.neighbours, Database.neighbours_res, dbTwoIsolated]

/-- The search between the two isolated nodes exhausts its frontier and
    returns None: the start fails the goal test (distance well over 100 m),
    has no neighbours, and the frontier empties. -/
theorem astar_dbTwo_none : astar 3 dbTwoIsolated ⟨1, 0, 0⟩ ⟨2, 0, 90⟩ = none := by
  have hpop : popMinEntry ⟨2, 0, 90⟩ [⟨0, ⟨1, 0, 0⟩, [⟨1, 0, 0⟩]⟩] =
      some (⟨0, ⟨1, 0, 0⟩, [⟨1, 0, 0⟩]⟩, []) := rfl
  have hvis : ([] : List ℤ).contains
      ((⟨0, ⟨1, 0, 0⟩, [⟨1, 0, 0⟩]⟩ : SearchEntry).node.id) = false := rfl
  have hstep := astarLoop_succ_expand dbTwoIsolated ⟨2, 0, 90⟩ 2 hpop
    success_isolated_false hvis
  calc astar 3 dbTwoIsolated ⟨1, 0, 0⟩ ⟨2, 0, 90⟩
      = astarLoop dbTwoIsolated ⟨2, 0, 90⟩ (2 + 1) [⟨0, ⟨1, 0, 0⟩, [⟨1, 0, 0⟩]⟩] [] := rfl
    _ = astarLoop dbTwoIsolated ⟨2, 0, 90⟩ 2
          ([] ++ (dbTwoIsolated.neighbours ⟨1, 0, 0⟩).map
            (fun nc => ⟨0 + nc.2, nc.1, nc.1 :: [⟨1, 0, 0⟩]⟩)) [(1:ℤ)] := hstep
    _ = astarLoop dbTwoIsolated ⟨2, 0, 90⟩ 2 [] [(1:ℤ)] := by
          rw [neighbours_dbTwo]
          simp
    _ = none := astarLoop_empty _ _ _ 2

/-- insertNodeRow is idempotent: re-inserting the same row changes nothing. -/
theorem insertNodeRow_idem (l : List NodeRow) (r : NodeRow) :
    insertNodeRow (insertNodeRow l r) r = insertNodeRow l r := by
  induction l with
  | nil => simp [insertNodeRow, lt_irrefl]
  | cons x xs ih =>
    by_cases h1 : r.id < x.id
    · simp only [insertNodeRow, if_pos h1]
      simp [insertNodeRow, lt_irrefl, if_pos h1]
    · by_cases h2 : r.id = x.id
      · simp only [insertNodeRow, if_neg h1, if_pos h2]
        simp [insertNodeRow, lt_irrefl]
      · simp only [insertNodeRow, if_neg h1, if_neg h2]
        rw [ih]

/-- Each processed way pair appends exactly one links row. -/
theorem foldl_links_length (pairs : List (ℤ × ℤ)) :
    ∀ db : Database,
      (pairs.foldl (fun d p => { d with links := d.links ++ [⟨d.nextLinkId, p.1, p.2⟩], nextLinkId := d.nextLinkId + 1 }) db).links.length = db.links.length + pairs.length := by
  induction pairs with
  | nil => intro db; simp
  | cons p ps ih =>
    intro db
    rw [List.foldl_cons, ih]
    simp
    omega

/-- update_way grows the links table by (member count − 1) rows, every time
    it runs: the INSERT OR REPLACE never replaces. -/
theorem update_way_link_count (db : Database) (way : List ℤ) :
    (db.update_way way).link_count = db.link_count + (way.length - 1) := by
  unfold Database.update_way Database.link_count
  rw [foldl_links_length]
  rw [List.length_zip, List.length_tail]
  omega

/-- Taking the first k digits of a zoom-z quadkey string yields the digit
    string of the right-shifted tile coordinates at zoom k. -/
theorem digits_take (x y : ℕ) :
    ∀ (z k : ℕ), k ≤ z →
      (Quadkey.digits x y z).take k =
        Quadkey.digits (x >>> (z - k)) (y >>> (z - k)) k := by
  intro z
  induction z with
  | zero =>
    intro k hk
    interval_cases k
    simp [Quadkey.digits]
  | succ z ih =>
    intro k hk
    cases k with
    | zero => simp [Quadkey.digits]
    | succ k =>
      have hk2 : k ≤ z := Nat.succ_le_succ_iff.1 hk
      simp only [Quadkey.digits, List.take_succ_cons, Nat.succ_sub_succ]
      congr 1
      · rw [Nat.testBit_shiftRight, Nat.testBit_shiftRight, Nat.sub_add_cancel hk2]
      · exact ih k hk2

/-- C1 counterexample: on a store where both endpoints resolve but the
    search exhausts its frontier, the service responds with the 404
    NOT_FOUND error produced by reject(), not with a success reply carrying
    an empty point sequence and distance 0 as the claim states. -/
theorem C1_counterexample :
    dbTwoIsolated.find_near 0 0 = some ⟨1, 0, 0⟩ ∧
    dbTwoIsolated.find_near 0 90 = some ⟨2, 0, 90⟩ ∧
    astar 3 dbTwoIsolated ⟨1, 0, 0⟩ ⟨2, 0, 90⟩ = none ∧
    service 3 dbTwoIsolated ⟨0, 0, 0, 90⟩ = Reply.failure 404 "NOT_FOUND" ∧
    service 3 dbTwoIsolated ⟨0, 0, 0, 90⟩ ≠ Reply.ok [] 0 := by
  have hserv : service 3 dbTwoIsolated ⟨0, 0, 0, 90⟩ = Reply.failure 404 "NOT_FOUND" := by
    simp only [service, route, find_near_dbTwo_00, find_near_dbTwo_090, astar_dbTwo_none,
      handle_rejection]
  refine ⟨find_near_dbTwo_00, find_near_dbTwo_090, astar_dbTwo_none, hserv, ?_⟩
  rw [hserv]
  simp

/-- C1 (amended): for every route request whose two endpoints both resolve,
    if the A* search returns without a path the service responds with the
    404 NOT_FOUND error reply (route calls reject(), which handle_rejection
    maps to 404), not with a success response. -/
theorem C1_unreachable_is_404 (fuel : ℕ) (db : Database) (params : QueryParams)
    (s g : RouteNode)
    (h1 : db.find_near params.lat1 params.lon1 = some s)
    (h2 : db.find_near params.lat2 params.lon2 = some g)
    (h3 : astar fuel db s g = none) :
    service fuel db params = Reply.failure 404 "NOT_FOUND" := by
  simp only [service, route, h1, h2, h3, handle_rejection]

/-- C1 witness: the amended statement at the concrete two-node store. -/
theorem C1_witness : service 3 dbTwoIsolated ⟨0, 0, 0, 90⟩ = Reply.failure 404 "NOT_FOUND" :=
  C1_unreachable_is_404 3 dbTwoIsolated ⟨0, 0, 0, 90⟩ ⟨1, 0, 0⟩ ⟨2, 0, 90⟩
    find_near_dbTwo_00 find_near_dbTwo_090 astar_dbTwo_none

/-- C2 counterexample: importing the way [1, 2] once yields one links row,
    importing it twice yields two — the link count is not preserved under
    re-import, refuting edge-upsert idempotence. -/
theorem C2_counterexample :
    (dbEmpty.update_way [1, 2]).link_count = 1 ∧
    ((dbEmpty.update_way [1, 2]).update_way [1, 2]).link_count = 2 := by
  constructor <;> rfl

/-- C2 (amended): node upserts are idempotent (same id overwrites the same
    row), but every run of update_way appends one links row per consecutive
    member pair regardless of what is already stored, so importing the same
    way twice doubles its link rows instead of leaving the count unchanged. -/
theorem C2_amended :
    (∀ (db : Database) (i : ℤ) (lat lon : ℝ),
        (db.update_node i lat lon).update_node i lat lon = db.update_node i lat lon) ∧
    ∀ (db : Database) (way : List ℤ),
        (db.update_way way).link_count = db.link_count + (way.length - 1) := by
  constructor
  · intro db i lat lon
    simp [Database.update_node, insertNodeRow_idem]
  · exact update_way_link_count

/-- C3 counterexample: at the point (0, 90) the zoom-1 key is "2" but the
    zoom-2 key is "31": the first character differs, because round (rather
    than floor) maps the x projection 1.5 up to tile 2 at zoom 1 while zoom
    2 yields tile 3. The prefix-hierarchy law fails. -/
theorem C3_counterexample :
    (Quadkey.new 0 90 2).take 1 = ['3'] ∧
    Quadkey.new 0 90 1 = ['2'] ∧
    (Quadkey.new 0 90 2).take 1 ≠ Quadkey.new 0 90 1 := by
  refine ⟨?_, qk1_090, ?_⟩
  · rw [qk2_090]
    decide
  · rw [qk2_090, qk1_090]
    decide

/-- C3 (amended): the lower-zoom key is a prefix of the higher-zoom key
    whenever the rounded tile coordinates are consistent between the zooms,
    i.e. the zoom-k coordinates equal the zoom-z coordinates shifted right
    by z − k; the code's use of round makes this side condition fail for
    some points (see the counterexample), so the law is not unconditional. -/
theorem C3_amended (lat lon : ℝ) (z k : ℕ) (_h1 : 1 ≤ k) (h2 : k < z)
    (hx : (Quadkey.tile lat lon k).1 = (Quadkey.tile lat lon z).1 >>> (z - k))
    (hy : (Quadkey.tile lat lon k).2 = (Quadkey.tile lat lon z).2 >>> (z - k)) :
    (Quadkey.new lat lon z).take k = Quadkey.new lat lon k := by
  unfold Quadkey.new
  rw [digits_take _ _ z k (le_of_lt h2), ← hx, ← hy]

/-- C3 witness: prefix property at (0,0) between zooms 4 and 2, where the
    tile coordinates are consistent. -/
theorem C3_witness : (Quadkey.new 0 0 4).take 2 = Quadkey.new 0 0 2 :=
  C3_amended 0 0 4 2 (by norm_num) (by norm_num)
    (by rw [tile_0_0_2, tile_0_0_4]; decide) (by rw [tile_0_0_2, tile_0_0_4]; decide)

/-- C4 counterexample: at the latitude whose radian value is arcsin(3/5)
    (about 36.87 degrees), zoom 4, the code's y tile coordinate is 5 while
    the spec formula with the natural-log asinh gives 6: the source divides
    log2(tan + sec) by pi, not ln(tan + sec). -/
theorem C4_counterexample :
    ((Quadkey.tile latStar 0 4).2 : ℤ) = 5 ∧ (specTile latStar 0 4).2 = 6 ∧
    ((Quadkey.tile latStar 0 4).2 : ℤ) ≠ (specTile latStar 0 4).2 := by
  refine ⟨?_, specTile_latStar_y, ?_⟩
  · rw [tile_latStar_y]
    norm_num
  · rw [tile_latStar_y, specTile_latStar_y]
    norm_num

/-- C4 (amended): the tile coordinates satisfy
    xtile = round((lon+180)/360 · 2^zoom) and
    ytile = round((1 − log2(tan latRad + sec latRad)/π)/2 · 2^zoom) — the
    base-2 logarithm, not asinh/ln — whenever the rounded values are in u32
    range so the saturating cast is the identity. -/
theorem C4_amended (lat lon : ℝ) (zoom : ℕ)
    (hx0 : 0 ≤ (specTile2 lat lon zoom).1) (hx1 : (specTile2 lat lon zoom).1 ≤ 2 ^ 32 - 1)
    (hy0 : 0 ≤ (specTile2 lat lon zoom).2) (hy1 : (specTile2 lat lon zoom).2 ≤ 2 ^ 32 - 1) :
    ((Quadkey.tile lat lon zoom).1 : ℤ) = (specTile2 lat lon zoom).1 ∧
    ((Quadkey.tile lat lon zoom).2 : ℤ) = (specTile2 lat lon zoom).2 :=
  ⟨satU32_int _ hx0 hx1, satU32_int _ hy0 hy1⟩

/-- C4 witness: the amended formula at (0,0), zoom 4. -/
theorem C4_witness :
    ((Quadkey.tile 0 0 4).1 : ℤ) = (specTile2 0 0 4).1 ∧
    ((Quadkey.tile 0 0 4).2 : ℤ) = (specTile2 0 0 4).2 :=
  C4_amended 0 0 4 (by rw [specTile2_0_0_4]; norm_num) (by rw [specTile2_0_0_4]; norm_num)
    (by rw [specTile2_0_0_4]; norm_num) (by rw [specTile2_0_0_4]; norm_num)

/-- C5 counterexample: with two distinct rows stored at exactly (0,0),
    find_near at (0,0) returns the id-1 node, so for the stored id-2 node
    the claim "querying a stored node's own coordinates returns that node"
    fails: both candidates are at rounded distance 0 and min_by keeps the
    first in scan order. -/
theorem C5_counterexample :
    (⟨2, 0, 0, k13at00⟩ : NodeRow) ∈ dbCoincident.nodes ∧
    dbCoincident.find_near 0 0 = some ⟨1, 0, 0⟩ ∧
    dbCoincident.find_near 0 0 ≠ some ⟨2, 0, 0⟩ := by
  refine ⟨by simp [dbCoincident], find_near_dbCoincident, ?_⟩
  rw [find_near_dbCoincident]
  simp

/-- C5 (amended): a stored node is returned by find_near at its own
    coordinates provided its stored key's 12-character prefix matches the
    query key, node ids are unique, and it is strictly closer (in rounded
    distance) than every other candidate — in particular when it is the only
    candidate at rounded distance 0. -/
theorem C5_amended (db : Database) (r : NodeRow)
    (havail : db.available = true)
    (hmem : r ∈ db.nodes)
    (hkey : r.quadkey.take 12 = Quadkey.new r.lat r.lon 12)
    (hnodup : (db.nodes.map NodeRow.id).Nodup)
    (hmin : ∀ m ∈ db.candidates r.lat r.lon, m.id ≠ r.id →
      distance_between r.toRoute ⟨0, r.lat, r.lon⟩ < distance_between m ⟨0, r.lat, r.lon⟩) :
    db.find_near r.lat r.lon = some r.toRoute := by
  have hne : ¬ db.available = false := by
    rw [havail]
    simp
  have hcand : r.toRoute ∈ db.candidates r.lat r.lon := by
    unfold Database.candidates
    exact List.mem_map_of_mem _ (List.mem_filter.2 ⟨hmem, by simp [hkey]⟩)
  have hstrict : ∀ y ∈ db.candidates r.lat r.lon, y ≠ r.toRoute →
      distance_between r.toRoute ⟨0, r.lat, r.lon⟩ < distance_between y ⟨0, r.lat, r.lon⟩ := by
    intro y hy hney
    apply hmin y hy
    intro hid
    apply hney
    unfold Database.candidates at hy
    obtain ⟨m, hmf, hym⟩ := List.mem_map.1 hy
    have hmn : m ∈ db.nodes := (List.mem_filter.1 hmf).1
    have hmid : m.id = r.id := by
      have : (NodeRow.toRoute m).id = y.id := by rw [hym]
      rw [← this] at hid
      exact hid
    have hmr : m = r := List.inj_on_of_nodup_map hnodup hmn hmem hmid
    rw [← hym, hmr]
  have hfold := minByDist_eq_of_strict ⟨0, r.lat, r.lon⟩ r.toRoute
    (db.candidates r.lat r.lon) hcand hstrict
  simp only [Database.find_near, Database.find_near_err, if_neg hne, hfold]

/-- C5 witness: the single node stored at (0,0) with id 7 is returned by
    find_near at (0,0). -/
theorem C5_witness : dbSingle.find_near 0 0 = some ⟨7, 0, 0⟩ := by
  have h := C5_amended dbSingle ⟨7, 0, 0, k13at00⟩ rfl (by simp [dbSingle])
    (by rw [qk12_00]; decide) (by simp [dbSingle])
    (by
      intro m hm hne2
      have hm2 : m ∈ dbSingle.candidates 0 0 := hm
      rw [candidates_dbSingle] at hm2
      simp only [List.mem_singleton] at hm2
      exfalso
      apply hne2
      rw [hm2])
  exact h

/-- C6 counterexample: with the store connection down, find_near_err and
    neighbours_res do produce the typed StorageUnavailable error, but the
    public find_near and neighbours swallow it into None and the empty
    neighbour list — exactly the silent conversion the claim rules out. -/
theorem C6_counterexample :
    dbDown.find_near_err 0 0 = .error .storageUnavailable ∧
    dbDown.find_near 0 0 = none ∧
    dbDown.neighbours_res ⟨1, 0, 0⟩ = .error .storageUnavailable ∧
    dbDown.neighbours ⟨1, 0, 0⟩ = [] :=
  ⟨rfl, rfl, rfl, rfl⟩

/-- C6 (amended): when the store fails, the inner query functions return
    the typed StorageUnavailable error, but find_near converts any error to
    None (indistinguishable from NotFound) and neighbours converts any error
    to the empty neighbour set via unwrap_or. -/
theorem C6_amended (db : Database) (h : db.available = false) (lat lon : ℝ) (n : RouteNode) :
    db.find_near_err lat lon = .error .storageUnavailable ∧
    db.find_near lat lon = none ∧
    db.neighbours_res n = .error .storageUnavailable ∧
    db.neighbours n = [] := by
  simp [Database.find_near, Database.find_near_err, Database.neighbours,
    Database.neighbours_res, h]

/-- C6 witness: the amended statement at the concrete failing store. -/
theorem C6_witness : dbDown.find_near 0 0 = none ∧ dbDown.neighbours ⟨1, 0, 0⟩ = [] := by
  have h := C6_amended dbDown rfl 0 0 ⟨1, 0, 0⟩
  exact ⟨h.2.1, h.2.2.2⟩

/-- C7: find_near computes the query point's zoom-12 key, filters the
    stored nodes to those whose stored key starts with it, and returns None
    exactly when that candidate set is empty, otherwise a candidate whose
    rounded great-circle distance to the query point is minimal among all
    candidates. -/
theorem C7_resolver (db : Database) (lat lon : ℝ) (h : db.available = true) :
    (db.find_near lat lon = none ↔ db.candidates lat lon = []) ∧
    ∀ n, db.find_near lat lon = some n →
      n ∈ db.candidates lat lon ∧
      ∀ m ∈ db.candidates lat lon,
        distance_between n ⟨0, lat, lon⟩ ≤ distance_between m ⟨0, lat, lon⟩ := by
  have hne : ¬ db.available = false := by
    rw [h]
    simp
  simp only [Database.find_near, Database.find_near_err, if_neg hne]
  cases hmin : minByDist ⟨0, lat, lon⟩ (db.candidates lat lon) with
  | none =>
    simp only [hmin]
    refine ⟨by simp [(minByDist_eq_none_iff _ _).1 hmin], ?_⟩
    intro n hn
    cases hn
  | some n0 =>
    simp only [hmin]
    have hm := minByDist_mem_le _ _ _ hmin
    constructor
    · constructor
      · intro hcontra
        cases hcontra
      · intro hemp
        rw [hemp] at hmin
        cases hmin
    · intro n hn
      injection hn with hn
      rw [← hn]
      exact hm

/-- C7 witness: on the empty store the resolver returns None and indeed the
    candidate set is empty. -/
theorem C7_witness : dbEmpty.candidates 0 0 = [] :=
  (C7_resolver dbEmpty 0 0 rfl).1.mp find_near_dbEmpty

/-- C8: the goal test succeeds exactly when the node's id equals the goal's
    id or its rounded great-circle distance to the goal is strictly below
    100 m; any path the search returns ends at a node passing the test; and
    the distance of the goal to itself is 0, so the endpoint of a returned
    route is always within 100 m of the resolved goal. -/
theorem C8_goal_test :
    (∀ goal n : RouteNode, success goal n = true ↔
      (n.id = goal.id ∨ RouteNode.distance_to n goal < 100)) ∧
    (∀ (fuel : ℕ) (db : Database) (s g : RouteNode) (p : List RouteNode) (c : ℤ),
      astar fuel db s g = some (p, c) →
      ∃ last, p.getLast? = some last ∧ success g last = true) ∧
    (∀ g : RouteNode, RouteNode.distance_to g g = 0) := by
  refine ⟨?_, ?_, ?_⟩
  · intro goal n
    simp [success, routeNode_beq]
  · intro fuel db s g p c h
    apply astarLoop_last db g fuel [⟨0, s, [s]⟩] [] p c ?_ h
    intro e he
    simp only [List.mem_singleton] at he
    subst he
    rfl
  · intro g
    exact dist_same_coords g g rfl rfl

/-- C8 witness: a search from a node to itself returns that single-node
    path, whose last node passes the goal test. -/
theorem C8_witness :
    ∃ last, ([(⟨5, 0, 0⟩ : RouteNode)]).getLast? = some last ∧
      success ⟨5, 0, 0⟩ last = true :=
  C8_goal_test.2.1 1 dbEmpty ⟨5, 0, 0⟩ ⟨5, 0, 0⟩ [⟨5, 0, 0⟩] 0 (astar_self dbEmpty ⟨5, 0, 0⟩)

/-- C9: whenever either endpoint fails nearest-node resolution, the service
    replies with status 400 and message "Node not found" — the custom
    NodeNotFound rejection mapped by handle_rejection — never any 5xx. -/
theorem C9_endpoint_not_found (fuel : ℕ) (db : Database) (params : QueryParams)
    (h : db.find_near params.lat1 params.lon1 = none ∨
         db.find_near params.lat2 params.lon2 = none) :
    service fuel db params = Reply.failure 400 "Node not found" := by
  unfold service route
  rcases h with h | h
  · simp only [h]
    rfl
  · cases h2 : db.find_near params.lat1 params.lon1 <;> simp only [h2, h] <;> rfl

/-- C9 witness: a request against the empty store fails resolution and gets
    the 400 reply. -/
theorem C9_witness : service 1 dbEmpty ⟨0, 0, 0, 0⟩ = Reply.failure 400 "Node not found" :=
  C9_endpoint_not_found 1 dbEmpty ⟨0, 0, 0, 0⟩ (Or.inl find_near_dbEmpty)

/-- C10: RouteNode equality is by id alone — two nodes with the same id
    compare equal whatever their coordinates — so the equality in the goal
    test and the id-keyed visited check of the search identify nodes purely
    by id, ignoring coordinates. -/
theorem C10_identity_by_id :
    (∀ a b : RouteNode, (a == b) = (a.id == b.id)) ∧
    (∀ (i : ℤ) (la lo la2 lo2 : ℝ), ((⟨i, la, lo⟩ : RouteNode) == ⟨i, la2, lo2⟩) = true) ∧
    (∀ (goal : RouteNode) (i : ℤ) (la lo la2 lo2 : ℝ),
      ((⟨i, la, lo⟩ : RouteNode) == goal) = ((⟨i, la2, lo2⟩ : RouteNode) == goal)) ∧
    (∀ (visited : List ℤ) (i : ℤ) (la lo la2 lo2 : ℝ),
      visited.contains (RouteNode.mk i la lo).id = visited.contains (RouteNode.mk i la2 lo2).id) :=
  ⟨fun _ _ => rfl, fun i _ _ _ _ => by simp [routeNode_beq],
   fun _ _ _ _ _ _ => rfl, fun _ _ _ _ _ _ => rfl⟩
